import Mathlib

/-!
Shallow embedding of the core decision logic of the kairos-capi repository:
the infrastructure-machine template cloner (`CloneInfrastructureMachine` and
its per-provider clone functions, package `infrastructure`) and the k0s
cloud-config synthesizer (`generateK0sCloudConfig`, whose behaviour is pinned
by its unit tests and by the design document).

Unstructured Kubernetes objects are modelled as JSON-like trees whose maps
are association lists; the nested-field helpers mirror the semantics of
`k8s.io/apimachinery/pkg/apis/meta/v1/unstructured` (`NestedMap`,
`NestedBool`, `SetNestedField`, `SetNestedMap`): a lookup succeeds only when
every intermediate value is a map, and a set fails when an existing
intermediate value is not a map.
-/

namespace KairosCapi

/-- A JSON-like value, as stored in an `unstructured.Unstructured` object. -/
inductive UValue where
  | str : String → UValue
  | bool : Bool → UValue
  | int : Int → UValue
  | list : List UValue → UValue
  | map : List (String × UValue) → UValue

/-- Lookup of a key in a JSON object (association list). -/
def getKey : List (String × UValue) → String → Option UValue
  | [], _ => none
  | (k', v) :: rest, k => if k' = k then some v else getKey rest k

/-- Set a key in a JSON object, replacing an existing binding in place. -/
def setKey : List (String × UValue) → String → UValue → List (String × UValue)
  | [], k, v => [(k, v)]
  | (k', v') :: rest, k, v =>
      if k' = k then (k, v) :: rest else (k', v') :: setKey rest k v

/-- `unstructured.NestedFieldNoCopy`: follow a path of fields; every
intermediate value must be a map. -/
def nestedValue (m : List (String × UValue)) : List String → Option UValue
  | [] => some (.map m)
  | [k] => getKey m k
  | k :: ks =>
      match getKey m k with
      | some (.map m') => nestedValue m' ks
      | _ => none

/-- `unstructured.NestedMap`: the value at the path, provided it is a map
(the deep copy made by the Go helper is irrelevant in a pure model). -/
def nestedMap (m : List (String × UValue)) (fields : List String) :
    Option (List (String × UValue)) :=
  match nestedValue m fields with
  | some (.map m') => some m'
  | _ => none

/-- `unstructured.SetNestedField`: walk the path creating missing
intermediate maps; fail (`none`) when an existing intermediate value is not
a map.  The clone functions below only ever hit the succeeding branch. -/
def setNestedField (m : List (String × UValue)) (v : UValue) :
    List String → Option (List (String × UValue))
  | [] => none
  | [k] => some (setKey m k v)
  | k :: ks =>
      match getKey m k with
      | some (.map m') =>
          (setNestedField m' v ks).map (fun m'' => setKey m k (.map m''))
      | some _ => none
      | none =>
          (setNestedField [] v ks).map (fun m'' => setKey m k (.map m''))

/-- An unstructured Kubernetes object: its JSON content. -/
structure Unstructured where
  content : List (String × UValue)

/-- Set a top-level field of an unstructured object. -/
def Unstructured.setTop (u : Unstructured) (k : String) (v : UValue) :
    Unstructured :=
  ⟨setKey u.content k v⟩

/-- `unstructured`'s error-ignoring internal field setter, used by
`SetName`, `SetNamespace`, `SetLabels`, `SetAnnotations`. -/
def Unstructured.setNestedIgnore (u : Unstructured) (v : UValue)
    (fields : List String) : Unstructured :=
  match setNestedField u.content v fields with
  | some m => ⟨m⟩
  | none => u

/-- `GroupVersionKind.ToAPIVersionAndKind`: the apiVersion string. -/
def apiVersionOf (group version : String) : String :=
  if group = "" then version else group ++ "/" ++ version

/-- `u.SetGroupVersionKind gvk`: sets the `apiVersion` and `kind` fields. -/
def Unstructured.setGVK (u : Unstructured) (group version kind : String) :
    Unstructured :=
  (u.setTop "apiVersion" (.str (apiVersionOf group version))).setTop
    "kind" (.str kind)

/-- A `map[string]string` as a JSON value (used for labels/annotations). -/
def strMap (ls : List (String × String)) : UValue :=
  .map (ls.map (fun p => (p.1, UValue.str p.2)))

/-- Build the identity part of a cloned machine object: GVK, name,
namespace, labels and annotations, in the order the Go code applies them. -/
def machineShell (group version kind machineName ns : String)
    (labels annotations : List (String × String)) : Unstructured :=
  (((((Unstructured.mk []).setGVK group version kind).setNestedIgnore
      (.str machineName) ["metadata", "name"]).setNestedIgnore
      (.str ns) ["metadata", "namespace"]).setNestedIgnore
      (strMap labels) ["metadata", "labels"]).setNestedIgnore
      (strMap annotations) ["metadata", "annotations"]

/-- A `corev1.ObjectReference`, with its `APIVersion` already split into
group and version (as `GroupVersionKind()` does). -/
structure ObjectReference where
  kind : String
  group : String
  version : String
  name : String
  ns : String
deriving DecidableEq, Repr

/-- `GroupVersionKind.String()`. -/
def gvkString (group version kind : String) : String :=
  group ++ "/" ++ version ++ ", Kind=" ++ kind

/-- `cloneDockerMachineTemplate`: a `DockerMachine` with the template's
nested `spec.template.spec` copied verbatim into `spec` when present. -/
def cloneDockerMachineTemplate (template : Unstructured)
    (machineName ns : String) (labels annotations : List (String × String)) :
    Except String Unstructured :=
  let dockerMachine :=
    machineShell "infrastructure.cluster.x-k8s.io" "v1beta1" "DockerMachine"
      machineName ns labels annotations
  match nestedMap template.content ["spec", "template", "spec"] with
  | some spec =>
      match setNestedField dockerMachine.content (.map spec) ["spec"] with
      | some m => .ok ⟨m⟩
      | none => .error "failed to set spec"
  | none => .ok dockerMachine

/-- `cloneVSphereMachineTemplate`: identical shape for `VSphereMachine`. -/
def cloneVSphereMachineTemplate (template : Unstructured)
    (machineName ns : String) (labels annotations : List (String × String)) :
    Except String Unstructured :=
  let vsphereMachine :=
    machineShell "infrastructure.cluster.x-k8s.io" "v1beta1" "VSphereMachine"
      machineName ns labels annotations
  match nestedMap template.content ["spec", "template", "spec"] with
  | some spec =>
      match setNestedField vsphereMachine.content (.map spec) ["spec"] with
      | some m => .ok ⟨m⟩
      | none => .error "failed to set spec"
  | none => .ok vsphereMachine

/-- A volume survives the clone unless it is a map carrying a
`cloudInitNoCloud` key (CAPK injects its own cloud-init volume). -/
def volumeKept (v : UValue) : Bool :=
  match v with
  | .map m => (getKey m "cloudInitNoCloud").isNone
  | _ => true

/-- A disk is dropped by the clone exactly when it is a map whose `name`
is the string `cloudinitdisk`. -/
def isCloudInitDisk (d : UValue) : Bool :=
  match d with
  | .map m =>
      match getKey m "name" with
      | some (.str n) => n = "cloudinitdisk"
      | _ => false
  | _ => false

/-- The volume filter of `cloneKubevirtMachineTemplate`. -/
def filterVolumes (vs : List UValue) : List UValue :=
  vs.filter volumeKept

/-- The disk filter of `cloneKubevirtMachineTemplate`. -/
def filterDisks (ds : List UValue) : List UValue :=
  ds.filter (fun d => ! isCloudInitDisk d)

/-- `ParseGroupVersion` applied to an `apiVersion` string, keeping only the
version (what `template.GroupVersionKind().Version` yields). -/
def versionOfAPIVersion (s : String) : String :=
  match s.splitOn "/" with
  | [v] => v
  | [_, v] => v
  | _ => ""

/-- The version recorded in the template object's `apiVersion` field. -/
def Unstructured.gvkVersion (u : Unstructured) : String :=
  match getKey u.content "apiVersion" with
  | some (.str s) => versionOfAPIVersion s
  | _ => ""

/-- The in-place rewrite `cloneKubevirtMachineTemplate` performs on the
fetched `virtualMachineTemplate.spec` map: filter `template.volumes` and
`template.domain.devices.disks` when those paths hold lists. -/
def filterVMTemplateSpec (vmTemplateSpec : List (String × UValue)) :
    List (String × UValue) :=
  match getKey vmTemplateSpec "template" with
  | some (.map templateSpec) =>
      let ts1 :=
        match getKey templateSpec "volumes" with
        | some (.list volumes) =>
            setKey templateSpec "volumes" (.list (filterVolumes volumes))
        | _ => templateSpec
      let ts2 :=
        match getKey ts1 "domain" with
        | some (.map domain) =>
            match getKey domain "devices" with
            | some (.map devs) =>
                match getKey devs "disks" with
                | some (.list disks) =>
                    setKey ts1 "domain" (.map (setKey domain "devices"
                      (.map (setKey devs "disks" (.list (filterDisks disks))))))
                | _ => ts1
            | _ => ts1
        | _ => ts1
      setKey vmTemplateSpec "template" (.map ts2)
  | _ => vmTemplateSpec

/-- `cloneKubevirtMachineTemplate`: a `KubevirtMachine` whose
`spec.virtualMachineTemplate.spec` is the template's nested
`spec.template.spec.virtualMachineTemplate.spec` with the `running` flag
copied explicitly, cloud-init volumes dropped and the `cloudinitdisk`
disk dropped; the version falls back to `v1alpha1` when empty. -/
def cloneKubevirtMachineTemplate (template : Unstructured)
    (machineName ns : String) (labels annotations : List (String × String)) :
    Except String Unstructured :=
  let version :=
    if template.gvkVersion = "" then "v1alpha1" else template.gvkVersion
  let kubevirtMachine :=
    machineShell "infrastructure.cluster.x-k8s.io" version "KubevirtMachine"
      machineName ns labels annotations
  match nestedMap template.content
      ["spec", "template", "spec", "virtualMachineTemplate", "spec"] with
  | some vmTemplateSpec =>
      let withRunning :=
        match getKey vmTemplateSpec "running" with
        | some (.bool running) =>
            match setNestedField kubevirtMachine.content (.bool running)
                ["spec", "virtualMachineTemplate", "spec", "running"] with
            | some m => Except.ok (Unstructured.mk m)
            | none => Except.error "failed to set running field"
        | _ => Except.ok kubevirtMachine
      match withRunning with
      | .error e => .error e
      | .ok machine =>
          match setNestedField machine.content
              (.map (filterVMTemplateSpec vmTemplateSpec))
              ["spec", "virtualMachineTemplate", "spec"] with
          | some m => .ok ⟨m⟩
          | none => .error "failed to set spec"
  | none => .ok kubevirtMachine

/-- `CloneInfrastructureMachine`: fetch the template through the store and
dispatch on the reference's Kind.  The store stands for `client.Get`. -/
def CloneInfrastructureMachine
    (store : ObjectReference → Except String Unstructured)
    (templateRef : ObjectReference) (machineName ns : String)
    (labels annotations : List (String × String)) :
    Except String Unstructured :=
  match store templateRef with
  | .error e => .error ("failed to get infrastructure template: " ++ e)
  | .ok templateObj =>
      if templateRef.kind = "DockerMachineTemplate" then
        cloneDockerMachineTemplate templateObj machineName ns labels annotations
      else if templateRef.kind = "VSphereMachineTemplate" then
        cloneVSphereMachineTemplate templateObj machineName ns labels annotations
      else if templateRef.kind = "KubevirtMachineTemplate"
          ∨ templateRef.kind = "KubeVirtMachineTemplate" then
        cloneKubevirtMachineTemplate templateObj machineName ns labels annotations
      else
        .error ("unsupported infrastructure provider: " ++ templateRef.kind
          ++ " (Group: " ++ templateRef.group
          ++ ", Version: " ++ templateRef.version
          ++ ", FullGVK: "
          ++ gvkString templateRef.group templateRef.version templateRef.kind
          ++ ")")

/-- String accessor at a nested path of an unstructured object. -/
def Unstructured.getString (u : Unstructured) (fields : List String) :
    Option String :=
  match nestedValue u.content fields with
  | some (.str s) => some s
  | _ => none

/-- The `kind` field of an unstructured object. -/
def Unstructured.getKind (u : Unstructured) : Option String :=
  u.getString ["kind"]

/-- The `apiVersion` field of an unstructured object. -/
def Unstructured.getAPIVersion (u : Unstructured) : Option String :=
  u.getString ["apiVersion"]

/-- The `metadata.name` field of an unstructured object. -/
def Unstructured.getName (u : Unstructured) : Option String :=
  u.getString ["metadata", "name"]

/-- The `metadata.namespace` field of an unstructured object. -/
def Unstructured.getNamespace (u : Unstructured) : Option String :=
  u.getString ["metadata", "namespace"]

/-- A reference to a Secret key holding the worker join token
(`bootstrapv1beta2.WorkerTokenSecretReference`, fields `Name` and `Key`). -/
structure WorkerTokenSecretReference where
  name : String
  key : String
deriving DecidableEq, Repr

/-- The fields of `KairosConfigSpec` consumed by the k0s cloud-config
synthesizer and the token resolver. -/
structure KairosConfigSpec where
  role : String
  distribution : String
  kubernetesVersion : String
  singleNode : Bool
  userName : String
  userPassword : String
  userGroups : List String
  workerToken : String
  workerTokenSecretRef : Option WorkerTokenSecretReference
deriving DecidableEq, Repr

/-- Modelled from the spec: the worker-token resolver of the bootstrap
controller (the controller's `generateK0sCloudConfig` helper is absent from
the sources; only its tests are present).  Order per the design: a secret
reference, when set, is fetched via SecretLookup and outright replaces any
inline token, with lookup failures propagated; otherwise a non-empty inline
token is used; otherwise a worker must fail with a message stating that a
token is required, while a control-plane spec resolves to the empty token. -/
def resolveWorkerToken (lookup : String → String → Option String)
    (spec : KairosConfigSpec) : Except String String :=
  match spec.workerTokenSecretRef with
  | some ref =>
      match lookup ref.name ref.key with
      | some v => .ok v
      | none => .error ("failed to get worker token from secret " ++ ref.name)
  | none =>
      if spec.workerToken ≠ "" then .ok spec.workerToken
      else if spec.role = "worker" then .error "worker token is required"
      else .ok ""

/-- The fixed first line of every synthesized document. -/
def cloudConfigHeader : String := "#cloud-config"

/-- The literal Kairos hostname placeholder line; the braces are opaque text
to the synthesizer and are never substituted by it. -/
def hostnameLine : String :=
  "hostname: metal-\x7b\x7b trunc 4 .MachineID \x7d\x7d"

/-- Modelled from the spec: the user-account block, with defaults applied
when name, password or groups are empty. -/
def userBlockLines (spec : KairosConfigSpec) : List String :=
  let name := if spec.userName = "" then "kairos" else spec.userName
  let passwd := if spec.userPassword = "" then "kairos" else spec.userPassword
  let groups := if spec.userGroups = [] then ["admin"] else spec.userGroups
  ["users:", "- name: " ++ name, "  passwd: " ++ passwd, "  groups:"] ++
    groups.map (fun g => "  - " ++ g)

/-- The token-file path shared by the worker start arguments and the
token-file write block. -/
def k0sTokenPath : String := "/etc/k0s/token"

/-- Modelled from the spec: the control-plane service stanza; the
single-node start flag is appended exactly when `singleNode` is true. -/
def k0sControlPlaneLines (singleNode : Bool) : List String :=
  ["k0s:", "  enabled: true", "  args:", "  - server"] ++
    (if singleNode then ["  - --single"] else [])

/-- Modelled from the spec: the worker service stanza whose start arguments
reference the token-file path, plus the file block writing the resolved
token to that exact path with restrictive permissions. -/
def k0sWorkerLines (token : String) : List String :=
  ["k0s-worker:", "  enabled: true", "  args:", "  - worker",
   "  - --token-file " ++ k0sTokenPath,
   "write_files:", "- path: " ++ k0sTokenPath,
   "  permissions: \"0600\"", "  content: |", "    " ++ token]

/-- Modelled from the spec: the line-oriented k0s cloud-config synthesizer
`generateK0sCloudConfig` (absent from the sources; only its tests are
present).  It fails fast on an unsupported distribution; a worker requires
a resolvable, non-empty token and a non-empty server address and gets the
worker stanza plus the token-file write; any other role gets the
control-plane stanza.  The machine name is accepted (the controller passes
the Machine) but never interpolated into the document. -/
def generateK0sCloudConfigLines (lookup : String → String → Option String)
    (spec : KairosConfigSpec) (machineName role serverAddress : String) :
    Except String (List String) :=
  if spec.distribution ≠ "k0s" then
    .error ("unsupported distribution: " ++ spec.distribution)
  else if role = "worker" then
    match resolveWorkerToken lookup spec with
    | .error e => .error e
    | .ok token =>
        if token = "" then .error "worker token is required"
        else if serverAddress = "" then
          .error "server address is required for worker nodes"
        else
          .ok ([cloudConfigHeader, hostnameLine] ++ userBlockLines spec ++
            k0sWorkerLines token)
  else
    .ok ([cloudConfigHeader, hostnameLine] ++ userBlockLines spec ++
      k0sControlPlaneLines spec.singleNode)

/-- Render a line-oriented document as a single string. -/
def renderLines : List String → String
  | [] => ""
  | [l] => l
  | l :: ls => l ++ "\n" ++ renderLines ls

/-- Modelled from the spec: the rendered cloud-config document. -/
def generateK0sCloudConfig (lookup : String → String → Option String)
    (spec : KairosConfigSpec) (machineName role serverAddress : String) :
    Except String String :=
  (generateK0sCloudConfigLines lookup spec machineName role serverAddress).map
    renderLines

/-- `sub` occurs contiguously inside `s`. -/
def containsSubstr (s sub : String) : Prop :=
  sub.data <:+: s.data

/-- The character data of an appended string. -/
theorem strData_append (s t : String) : (s ++ t).data = s.data ++ t.data := by
  cases s; cases t; rfl

/-- A string extending a prefix that does not start `t` cannot equal `t`. -/
theorem append_ne_of_not_prefix {p t : String} (h : ¬ p.data <+: t.data)
    (u : String) : p ++ u ≠ t := by
  intro he
  exact h ⟨u.data, by rw [← strData_append, he]⟩

/-- String append is left-cancellative. -/
theorem strAppend_left_cancel {p a b : String} (h : p ++ a = p ++ b) :
    a = b := by
  have h2 : (p ++ a).data = (p ++ b).data := by rw [h]
  rw [strData_append, strData_append] at h2
  have h3 := List.append_cancel_left h2
  cases a; cases b
  exact congrArg String.mk (by simpa using h3)

/-- String append is associative. -/
theorem strAppend_assoc (a b c : String) : a ++ b ++ c = a ++ (b ++ c) := by
  cases a; cases b; cases c
  exact congrArg String.mk (List.append_assoc _ _ _)

/-- A middle component of an appended string is a substring of it. -/
theorem containsSubstr_intro {s : String} (a : String) {sub : String}
    (b : String) (h : s = a ++ sub ++ b) : containsSubstr s sub :=
  ⟨a.data, b.data, by rw [h, strData_append, strData_append]⟩

/-- Every line of a rendered document occurs inside the rendered string. -/
theorem containsSubstr_renderLines {l : String} :
    ∀ {ls : List String}, l ∈ ls → containsSubstr (renderLines ls) l
  | [], h => absurd h (List.not_mem_nil l)
  | [x], h => by
      rcases List.mem_singleton.mp h with rfl
      exact ⟨[], [], by simp [renderLines]⟩
  | x :: y :: ys, h => by
      rcases List.mem_cons.mp h with rfl | h'
      · refine ⟨[], ("\n" ++ renderLines (y :: ys)).data, ?_⟩
        simp [renderLines, strData_append]
      · obtain ⟨a, b, hab⟩ := containsSubstr_renderLines h'
        refine ⟨(x ++ "\n").data ++ a, b, ?_⟩
        simp only [renderLines, strData_append, List.append_assoc] at hab ⊢
        rw [hab]

/-- A substring of a line of a document is a substring of the rendered
document. -/
theorem containsSubstr_of_mem_line {l sub : String}
    (hsub : containsSubstr l sub) {ls : List String} (h : l ∈ ls) :
    containsSubstr (renderLines ls) sub := by
  obtain ⟨a, b, hab⟩ := hsub
  obtain ⟨c, d, hcd⟩ := containsSubstr_renderLines h
  refine ⟨c ++ a, b ++ d, ?_⟩
  rw [← hcd, ← hab]
  simp [List.append_assoc]

/-- A successful synthesis for any non-worker role yields the header, the
user block and the control-plane stanza. -/
theorem elseLines_of_ok {lookup : String → String → Option String}
    {spec : KairosConfigSpec} {machineName role serverAddress : String}
    {d : List String} (hrole : role ≠ "worker")
    (hd : generateK0sCloudConfigLines lookup spec machineName role
      serverAddress = .ok d) :
    d = [cloudConfigHeader, hostnameLine] ++ userBlockLines spec ++
      k0sControlPlaneLines spec.singleNode := by
  by_cases hdist : spec.distribution = "k0s"
  · simp only [generateK0sCloudConfigLines, hdist, hrole, ne_eq,
      not_true_eq_false, if_false, if_neg, ite_false, Except.ok.injEq] at hd
    simp at hd
    exact hd.symm
  · simp [generateK0sCloudConfigLines, hdist] at hd

/-- A successful worker synthesis yields the header, the user block and the
worker stanza for the (non-empty) resolved token, with a non-empty server
address. -/
theorem workerLines_of_ok {lookup : String → String → Option String}
    {spec : KairosConfigSpec} {machineName serverAddress : String}
    {d : List String}
    (hd : generateK0sCloudConfigLines lookup spec machineName "worker"
      serverAddress = .ok d) :
    ∃ t, resolveWorkerToken lookup spec = .ok t ∧ t ≠ "" ∧
      serverAddress ≠ "" ∧
      d = [cloudConfigHeader, hostnameLine] ++ userBlockLines spec ++
        k0sWorkerLines t := by
  by_cases hdist : spec.distribution = "k0s"
  · cases hres : resolveWorkerToken lookup spec with
    | error e => simp [generateK0sCloudConfigLines, hdist, hres] at hd
    | ok t =>
      by_cases ht : t = ""
      · simp [generateK0sCloudConfigLines, hdist, hres, ht] at hd
      · by_cases hsa : serverAddress = ""
        · simp [generateK0sCloudConfigLines, hdist, hres, ht, hsa] at hd
        · refine ⟨t, rfl, ht, hsa, ?_⟩
          simp [generateK0sCloudConfigLines, hdist, hres, ht, hsa] at hd
          exact hd.symm
  · simp [generateK0sCloudConfigLines, hdist] at hd

/-- A line either differing from each fixed user-block line or not arising
from any group entry is not in the user block. -/
theorem not_mem_userBlockLines (t : String) (spec : KairosConfigSpec)
    (h1 : t ≠ "users:") (h2 : t ≠ "  groups:")
    (h3 : ¬ "- name: ".data <+: t.data)
    (h4 : ¬ "  passwd: ".data <+: t.data)
    (h5 : ∀ g ∈ (if spec.userGroups = [] then ["admin"]
      else spec.userGroups), "  - " ++ g ≠ t) :
    t ∉ userBlockLines spec := by
  intro hmem
  simp only [userBlockLines, List.mem_append, List.mem_cons,
    List.not_mem_nil, or_false, List.mem_map] at hmem
  rcases hmem with (rfl | h | h | rfl) | ⟨g, hg, hfg⟩
  · exact h1 rfl
  · exact append_ne_of_not_prefix h3 _ h.symm
  · exact append_ne_of_not_prefix h4 _ h.symm
  · exact h2 rfl
  · exact h5 g hg hfg

/-- A line that extends none of the user-block prefixes is not in the user
block. -/
theorem not_mem_userBlockLines_of_head (t : String) (spec : KairosConfigSpec)
    (h1 : t ≠ "users:") (h2 : t ≠ "  groups:")
    (h3 : ¬ "- name: ".data <+: t.data)
    (h4 : ¬ "  passwd: ".data <+: t.data)
    (h5 : ¬ "  - ".data <+: t.data) :
    t ∉ userBlockLines spec :=
  not_mem_userBlockLines t spec h1 h2 h3 h4
    (fun g _ => append_ne_of_not_prefix h5 g)

/-- A line differing from every control-plane stanza line is not in the
control-plane stanza. -/
theorem not_mem_k0sControlPlaneLines (t : String) (b : Bool)
    (h1 : t ≠ "k0s:") (h2 : t ≠ "  enabled: true") (h3 : t ≠ "  args:")
    (h4 : t ≠ "  - server") (h5 : t ≠ "  - --single") :
    t ∉ k0sControlPlaneLines b := by
  cases b <;> simp [k0sControlPlaneLines, h1, h2, h3, h4, h5]

/-- A line differing from every worker stanza line is not in the worker
stanza. -/
theorem not_mem_k0sWorkerLines (t : String) (token : String)
    (h1 : t ≠ "k0s-worker:") (h2 : t ≠ "  enabled: true")
    (h3 : t ≠ "  args:") (h4 : t ≠ "  - worker")
    (h5 : t ≠ "  - --token-file " ++ k0sTokenPath)
    (h6 : t ≠ "write_files:") (h7 : t ≠ "- path: " ++ k0sTokenPath)
    (h8 : t ≠ "  permissions: \"0600\"") (h9 : t ≠ "  content: |")
    (h10 : ¬ "    ".data <+: t.data) :
    t ∉ k0sWorkerLines token := by
  simp only [k0sWorkerLines, List.mem_append, List.mem_cons,
    List.not_mem_nil, or_false]
  intro hmem
  rcases hmem with rfl | rfl | rfl | rfl | rfl | rfl | rfl | rfl | rfl | h
  · exact h1 rfl
  · exact h2 rfl
  · exact h3 rfl
  · exact h4 rfl
  · exact h5 rfl
  · exact h6 rfl
  · exact h7 rfl
  · exact h8 rfl
  · exact h9 rfl
  · exact append_ne_of_not_prefix h10 _ h.symm

/-- Looking up `k'` after setting `k` sees the new value exactly when the
keys agree. -/
theorem getKey_setKey (m : List (String × UValue)) (k k' : String)
    (v : UValue) :
    getKey (setKey m k v) k' = if k = k' then some v else getKey m k' := by
  induction m with
  | nil => simp [setKey, getKey]
  | cons p rest ih =>
      obtain ⟨a, b⟩ := p
      by_cases hak : a = k
      · subst hak
        by_cases hkk : a = k'
        · subst hkk
          simp [setKey, getKey]
        · simp [setKey, getKey, hkk]
      · by_cases hak' : a = k'
        · subst hak'
          have hkk' : k ≠ a := fun he => hak he.symm
          simp [setKey, getKey, hak, hkk']
        · simp [setKey, getKey, hak, hak', ih]

/-- Filtering a volumes list holding exactly one cloud-init volume among
kept volumes keeps exactly the others, in order. -/
theorem filterVolumes_single_drop (l₁ l₂ : List UValue) (cv : UValue)
    (hcv : volumeKept cv = false)
    (hothers : ∀ v ∈ l₁ ++ l₂, volumeKept v = true) :
    filterVolumes (l₁ ++ cv :: l₂) = l₁ ++ l₂ := by
  simp only [filterVolumes, List.filter_append, List.filter_cons, hcv,
    Bool.false_eq_true, if_false, reduceIte]
  rw [List.filter_eq_self.mpr
      (fun v hv => hothers v (List.mem_append.mpr (Or.inl hv))),
    List.filter_eq_self.mpr
      (fun v hv => hothers v (List.mem_append.mpr (Or.inr hv)))]

/-- Every disk surviving the disk filter is not the cloud-init disk. -/
theorem mem_filterDisks_not_cloudinit {dk : UValue} {ds : List UValue}
    (h : dk ∈ filterDisks ds) : isCloudInitDisk dk = false := by
  have h2 := (List.mem_filter.mp h).2
  simpa using h2

end KairosCapi

namespace KairosCapi

example :
    cloneDockerMachineTemplate
      ⟨[("spec", .map [("template", .map [("spec",
          .map [("image", .str "kindest"), ("cpus", .int 2)])])])]⟩
      "m1" "default" [("a", "b")] [] =
    .ok ⟨[("apiVersion", .str "infrastructure.cluster.x-k8s.io/v1beta1"),
          ("kind", .str "DockerMachine"),
          ("metadata", .map [("name", .str "m1"),
            ("namespace", .str "default"),
            ("labels", .map [("a", .str "b")]),
            ("annotations", .map [])]),
          ("spec", .map [("image", .str "kindest"), ("cpus", .int 2)])]⟩ := rfl

/-- The JSON content of a freshly built machine shell. -/
theorem machineShell_content (group version kind machineName ns : String)
    (labels annotations : List (String × String)) :
    (machineShell group version kind machineName ns labels
        annotations).content =
    [("apiVersion", .str (apiVersionOf group version)), ("kind", .str kind),
     ("metadata", .map [("name", .str machineName), ("namespace", .str ns),
       ("labels", strMap labels), ("annotations", strMap annotations)])] := by
  simp [machineShell, Unstructured.setGVK, Unstructured.setTop,
    Unstructured.setNestedIgnore, setNestedField, setKey, getKey]

/-- C5: for every template reference whose Kind is none of the recognized
machine-template Kinds (and whose fetch succeeds),
`CloneInfrastructureMachine` returns an error and no object, and the error
message contains the raw Kind together with its full group and version. -/
theorem cloneUnsupportedKind_fails
    (store : ObjectReference → Except String Unstructured)
    (templateRef : ObjectReference) (machineName ns : String)
    (labels annotations : List (String × String)) (t : Unstructured)
    (hget : store templateRef = .ok t)
    (h1 : templateRef.kind ≠ "DockerMachineTemplate")
    (h2 : templateRef.kind ≠ "VSphereMachineTemplate")
    (h3 : templateRef.kind ≠ "KubevirtMachineTemplate")
    (h4 : templateRef.kind ≠ "KubeVirtMachineTemplate") :
    ∃ e, CloneInfrastructureMachine store templateRef machineName ns
        labels annotations = .error e ∧
      containsSubstr e templateRef.kind ∧
      containsSubstr e templateRef.group ∧
      containsSubstr e templateRef.version := by
  refine ⟨"unsupported infrastructure provider: " ++ templateRef.kind
      ++ " (Group: " ++ templateRef.group
      ++ ", Version: " ++ templateRef.version
      ++ ", FullGVK: "
      ++ gvkString templateRef.group templateRef.version templateRef.kind
      ++ ")", ?_, ?_, ?_, ?_⟩
  · simp [CloneInfrastructureMachine, hget, h1, h2, h3, h4]
  · exact containsSubstr_intro "unsupported infrastructure provider: "
      (" (Group: " ++ templateRef.group ++ ", Version: "
        ++ templateRef.version ++ ", FullGVK: "
        ++ gvkString templateRef.group templateRef.version templateRef.kind
        ++ ")")
      (by simp [strAppend_assoc])
  · exact containsSubstr_intro
      ("unsupported infrastructure provider: " ++ templateRef.kind
        ++ " (Group: ")
      (", Version: " ++ templateRef.version ++ ", FullGVK: "
        ++ gvkString templateRef.group templateRef.version templateRef.kind
        ++ ")")
      (by simp [strAppend_assoc])
  · exact containsSubstr_intro
      ("unsupported infrastructure provider: " ++ templateRef.kind
        ++ " (Group: " ++ templateRef.group ++ ", Version: ")
      (", FullGVK: "
        ++ gvkString templateRef.group templateRef.version templateRef.kind
        ++ ")")
      (by simp [strAppend_assoc])

/-- Witness for C5 at a concrete unrecognized reference. -/
theorem cloneUnsupportedKind_fails_witness :
    ∃ e, CloneInfrastructureMachine (fun _ => .ok ⟨[]⟩)
        ⟨"AWSMachineTemplate", "infrastructure.cluster.x-k8s.io", "v1beta2",
          "tpl", "default"⟩ "machine-0" "default" [] [] = .error e ∧
      containsSubstr e "AWSMachineTemplate" ∧
      containsSubstr e "infrastructure.cluster.x-k8s.io" ∧
      containsSubstr e "v1beta2" :=
  cloneUnsupportedKind_fails _ _ "machine-0" "default" [] [] ⟨[]⟩ rfl
    (by decide) (by decide) (by decide) (by decide)

/-- C10: for every DockerMachineTemplate or VSphereMachineTemplate whose
fetched template object has no nested map at `spec.template.spec`,
`CloneInfrastructureMachine` still succeeds, and the returned object
carries the given identity but has no `spec` field at all. -/
theorem genericTemplateClone_missing_spec_ok
    (store : ObjectReference → Except String Unstructured)
    (templateRef : ObjectReference) (machineName ns : String)
    (labels annotations : List (String × String)) (t : Unstructured)
    (hget : store templateRef = .ok t)
    (hkind : templateRef.kind = "DockerMachineTemplate"
      ∨ templateRef.kind = "VSphereMachineTemplate")
    (hspec : nestedMap t.content ["spec", "template", "spec"] = none) :
    ∃ m, CloneInfrastructureMachine store templateRef machineName ns
        labels annotations = .ok m ∧
      getKey m.content "spec" = none ∧
      m.getName = some machineName ∧
      m.getNamespace = some ns ∧
      nestedValue m.content ["metadata", "labels"] = some (strMap labels) ∧
      nestedValue m.content ["metadata", "annotations"]
        = some (strMap annotations) := by
  rcases hkind with hk | hk <;>
    [refine ⟨machineShell "infrastructure.cluster.x-k8s.io" "v1beta1"
        "DockerMachine" machineName ns labels annotations,
        ?_, ?_, ?_, ?_, ?_, ?_⟩;
     refine ⟨machineShell "infrastructure.cluster.x-k8s.io" "v1beta1"
        "VSphereMachine" machineName ns labels annotations,
        ?_, ?_, ?_, ?_, ?_, ?_⟩] <;>
    simp [CloneInfrastructureMachine, hget, hk,
      cloneDockerMachineTemplate, cloneVSphereMachineTemplate, hspec,
      machineShell_content, nestedValue, getKey,
      Unstructured.getName, Unstructured.getNamespace,
      Unstructured.getString]

/-- Witness for C10: a Docker template whose `spec.template.spec` is
absent clones to an object with identity fields and no `spec`. -/
theorem genericTemplateClone_missing_spec_ok_witness :
    ∃ m, CloneInfrastructureMachine
        (fun _ => .ok ⟨[("spec", .map [("replicas", .int 1)])]⟩)
        ⟨"DockerMachineTemplate", "infrastructure.cluster.x-k8s.io",
          "v1beta1", "tpl", "default"⟩ "machine-0" "default"
        [("cluster", "c1")] [] = .ok m ∧
      getKey m.content "spec" = none ∧
      m.getName = some "machine-0" ∧
      m.getNamespace = some "default" ∧
      nestedValue m.content ["metadata", "labels"]
        = some (strMap [("cluster", "c1")]) ∧
      nestedValue m.content ["metadata", "annotations"]
        = some (strMap []) :=
  genericTemplateClone_missing_spec_ok _ _ "machine-0" "default"
    [("cluster", "c1")] [] ⟨[("spec", .map [("replicas", .int 1)])]⟩ rfl
    (Or.inl rfl) rfl

/-- C4: for every DockerMachineTemplate or VSphereMachineTemplate input
(references in the canonical provider group) whose nested
`spec.template.spec` is present, `CloneInfrastructureMachine` returns a new
object whose Kind is the template's Kind with the trailing `Template`
suffix dropped, whose group equals the reference's group, with the pinned
version `v1beta1`, carrying exactly the given name, namespace, labels and
annotations, and whose `spec` equals the nested `template.spec` verbatim. -/
theorem genericTemplateClone_copies_spec
    (store : ObjectReference → Except String Unstructured)
    (templateRef : ObjectReference) (machineName ns : String)
    (labels annotations : List (String × String)) (t : Unstructured)
    (sp : List (String × UValue))
    (hget : store templateRef = .ok t)
    (hkind : templateRef.kind = "DockerMachineTemplate"
      ∨ templateRef.kind = "VSphereMachineTemplate")
    (hgroup : templateRef.group = "infrastructure.cluster.x-k8s.io")
    (hspec : nestedMap t.content ["spec", "template", "spec"] = some sp) :
    ∃ m, CloneInfrastructureMachine store templateRef machineName ns
        labels annotations = .ok m ∧
      (∃ k, m.getKind = some k ∧ k ++ "Template" = templateRef.kind) ∧
      m.getAPIVersion = some (templateRef.group ++ "/v1beta1") ∧
      m.getName = some machineName ∧
      m.getNamespace = some ns ∧
      nestedValue m.content ["metadata", "labels"] = some (strMap labels) ∧
      nestedValue m.content ["metadata", "annotations"]
        = some (strMap annotations) ∧
      nestedValue m.content ["spec"] = some (.map sp) := by
  rcases hkind with hk | hk
  · simp only [CloneInfrastructureMachine, hget, hk,
      cloneDockerMachineTemplate, hspec, machineShell_content,
      setNestedField, setKey, getKey, reduceIte]
    refine ⟨_, rfl, ⟨"DockerMachine", ?_, ?_⟩, ?_, ?_, ?_, ?_, ?_, ?_⟩ <;>
      simp [hk, hgroup, nestedValue, getKey, apiVersionOf,
        Unstructured.getKind, Unstructured.getAPIVersion,
        Unstructured.getName, Unstructured.getNamespace,
        Unstructured.getString, strAppend_assoc]
  · simp only [CloneInfrastructureMachine, hget, hk,
      cloneVSphereMachineTemplate, hspec, machineShell_content,
      setNestedField, setKey, getKey, reduceIte]
    refine ⟨_, rfl, ⟨"VSphereMachine", ?_, ?_⟩, ?_, ?_, ?_, ?_, ?_, ?_⟩ <;>
      simp [hk, hgroup, nestedValue, getKey, apiVersionOf,
        Unstructured.getKind, Unstructured.getAPIVersion,
        Unstructured.getName, Unstructured.getNamespace,
        Unstructured.getString, strAppend_assoc]

/-- Witness for C4 at a concrete Docker template with a nested spec. -/
theorem genericTemplateClone_copies_spec_witness :
    ∃ m, CloneInfrastructureMachine
        (fun _ => .ok ⟨[("spec", .map [("template", .map [("spec",
            .map [("image", .str "kindest/node")])])])]⟩)
        ⟨"DockerMachineTemplate", "infrastructure.cluster.x-k8s.io",
          "v1beta1", "tpl", "default"⟩ "machine-0" "default"
        [("cluster", "c1")] [("note", "x")] = .ok m ∧
      (∃ k, m.getKind = some k ∧ k ++ "Template" = "DockerMachineTemplate") ∧
      m.getAPIVersion
        = some ("infrastructure.cluster.x-k8s.io" ++ "/v1beta1") ∧
      m.getName = some "machine-0" ∧
      m.getNamespace = some "default" ∧
      nestedValue m.content ["metadata", "labels"]
        = some (strMap [("cluster", "c1")]) ∧
      nestedValue m.content ["metadata", "annotations"]
        = some (strMap [("note", "x")]) ∧
      nestedValue m.content ["spec"]
        = some (.map [("image", .str "kindest/node")]) :=
  genericTemplateClone_copies_spec _ _ "machine-0" "default"
    [("cluster", "c1")] [("note", "x")] _ _ rfl (Or.inl rfl) rfl rfl

/-- C3: for every worker-role spec with neither a token secret reference
nor an inline token, cloud-config synthesis returns an error whose message
states that a token is required, and no document is produced. -/
theorem workerToken_missing_fails (lookup : String → String → Option String)
    (spec : KairosConfigSpec) (machineName serverAddress : String)
    (hrole : spec.role = "worker")
    (hdist : spec.distribution = "k0s")
    (href : spec.workerTokenSecretRef = none)
    (htok : spec.workerToken = "") :
    generateK0sCloudConfig lookup spec machineName "worker" serverAddress
      = .error "worker token is required" := by
  simp [generateK0sCloudConfig, generateK0sCloudConfigLines,
    resolveWorkerToken, hrole, hdist, href, htok, Except.map]

/-- Witness for C3: a tokenless worker spec fails with the required-token
message. -/
theorem workerToken_missing_fails_witness :
    generateK0sCloudConfig (fun _ _ => none)
      ⟨"worker", "k0s", "v1.30.0+k0s.0", false, "kairos", "kairos",
        ["admin"], "", none⟩
      "test-machine" "worker" "https://control-plane:6443"
      = .error "worker token is required" :=
  workerToken_missing_fails _ _ "test-machine" "https://control-plane:6443"
    rfl rfl rfl rfl

/-- C2: for every worker-role spec with both a token secret reference and a
non-empty inline token, when the referenced secret key resolves the
document contains the secret's token value, and the document is the very
document generated under any other inline token, so the inline value never
reaches it. -/
theorem workerToken_secret_precedence
    (lookup : String → String → Option String) (spec : KairosConfigSpec)
    (machineName serverAddress : String)
    (ref : WorkerTokenSecretReference) (v : String)
    (hrole : spec.role = "worker")
    (hdist : spec.distribution = "k0s")
    (href : spec.workerTokenSecretRef = some ref)
    (hlookup : lookup ref.name ref.key = some v)
    (hv : v ≠ "")
    (hinline : spec.workerToken ≠ "")
    (hsa : serverAddress ≠ "") :
    ∃ doc, generateK0sCloudConfig lookup spec machineName "worker"
        serverAddress = .ok doc ∧
      containsSubstr doc v ∧
      ∀ t', generateK0sCloudConfig lookup {spec with workerToken := t'}
        machineName "worker" serverAddress = .ok doc := by
  have hmem : ("    " ++ v) ∈
      ([cloudConfigHeader, hostnameLine] ++ userBlockLines spec ++
        k0sWorkerLines v) := by
    simp [k0sWorkerLines]
  refine ⟨renderLines ([cloudConfigHeader, hostnameLine] ++
      userBlockLines spec ++ k0sWorkerLines v), ?_, ?_, ?_⟩
  · simp [generateK0sCloudConfig, generateK0sCloudConfigLines,
      resolveWorkerToken, href, hlookup, hdist, hv, hsa, Except.map]
  · exact containsSubstr_of_mem_line
      ⟨"    ".data, [], by simp [strData_append]⟩ hmem
  · intro t'
    simp [generateK0sCloudConfig, generateK0sCloudConfigLines,
      resolveWorkerToken, href, hlookup, hdist, hv, hsa, Except.map,
      userBlockLines]

/-- Witness for C2 at the precedence test's inputs: the secret value is
resolved and the document is independent of, and free of, the inline
token. -/
theorem workerToken_secret_precedence_witness :
    (∃ doc, generateK0sCloudConfig
        (fun n k => if n = "worker-token" ∧ k = "token" then
          some "secret-token-takes-precedence" else none)
        ⟨"worker", "k0s", "v1.30.0+k0s.0", false, "kairos", "kairos",
          ["admin"], "inline-token-should-be-ignored",
          some ⟨"worker-token", "token"⟩⟩
        "test-machine" "worker" "https://control-plane:6443" = .ok doc ∧
      containsSubstr doc "secret-token-takes-precedence" ∧
      ∀ t', generateK0sCloudConfig
        (fun n k => if n = "worker-token" ∧ k = "token" then
          some "secret-token-takes-precedence" else none)
        ⟨"worker", "k0s", "v1.30.0+k0s.0", false, "kairos", "kairos",
          ["admin"], t', some ⟨"worker-token", "token"⟩⟩
        "test-machine" "worker" "https://control-plane:6443" = .ok doc) :=
  workerToken_secret_precedence _ _ "test-machine"
    "https://control-plane:6443" ⟨"worker-token", "token"⟩
    "secret-token-takes-precedence" rfl rfl rfl (by decide) (by decide)
    (by decide) (by decide)

/-- C6: every successfully synthesized control-plane document contains the
control-plane service stanza and not the worker service stanza, and every
successfully synthesized worker document contains the worker service
stanza and not the control-plane service stanza. -/
theorem role_stanza_exclusive (lookup : String → String → Option String)
    (spec : KairosConfigSpec) (machineName serverAddress : String) :
    (∀ d, generateK0sCloudConfigLines lookup spec machineName
        "control-plane" serverAddress = .ok d →
      "k0s:" ∈ d ∧ "k0s-worker:" ∉ d) ∧
    (∀ d, generateK0sCloudConfigLines lookup spec machineName
        "worker" serverAddress = .ok d →
      "k0s-worker:" ∈ d ∧ "k0s:" ∉ d) := by
  constructor
  · intro d hd
    obtain rfl := elseLines_of_ok (by decide) hd
    constructor
    · simp [k0sControlPlaneLines]
    · intro hmem
      rcases List.mem_append.mp hmem with h | h
      · rcases List.mem_append.mp h with h | h
        · simp [cloudConfigHeader, hostnameLine] at h
        · exact not_mem_userBlockLines_of_head "k0s-worker:" spec (by decide)
            (by decide) (by decide) (by decide) (by decide) h
      · exact not_mem_k0sControlPlaneLines "k0s-worker:" _ (by decide)
          (by decide) (by decide) (by decide) (by decide) h
  · intro d hd
    obtain ⟨t, _, _, _, rfl⟩ := workerLines_of_ok hd
    constructor
    · simp [k0sWorkerLines]
    · intro hmem
      rcases List.mem_append.mp hmem with h | h
      · rcases List.mem_append.mp h with h | h
        · simp [cloudConfigHeader, hostnameLine] at h
        · exact not_mem_userBlockLines_of_head "k0s:" spec (by decide)
            (by decide) (by decide) (by decide) (by decide) h
      · exact not_mem_k0sWorkerLines "k0s:" _ (by decide) (by decide)
          (by decide) (by decide) (by decide) (by decide) (by decide)
          (by decide) (by decide) (by decide) h

/-- Witness for C6 at concrete control-plane and worker documents. -/
theorem role_stanza_exclusive_witness :
    ("k0s:" ∈ (["#cloud-config", hostnameLine] ++
        ["users:", "- name: kairos", "  passwd: kairos", "  groups:",
          "  - admin"] ++
        ["k0s:", "  enabled: true", "  args:", "  - server"]) ∧
      "k0s-worker:" ∉ (["#cloud-config", hostnameLine] ++
        ["users:", "- name: kairos", "  passwd: kairos", "  groups:",
          "  - admin"] ++
        ["k0s:", "  enabled: true", "  args:", "  - server"])) ∧
    ("k0s-worker:" ∈ (["#cloud-config", hostnameLine] ++
        ["users:", "- name: kairos", "  passwd: kairos", "  groups:",
          "  - admin"] ++
        ["k0s-worker:", "  enabled: true", "  args:", "  - worker",
          "  - --token-file /etc/k0s/token", "write_files:",
          "- path: /etc/k0s/token", "  permissions: \"0600\"",
          "  content: |", "    test-token-12345"]) ∧
      "k0s:" ∉ (["#cloud-config", hostnameLine] ++
        ["users:", "- name: kairos", "  passwd: kairos", "  groups:",
          "  - admin"] ++
        ["k0s-worker:", "  enabled: true", "  args:", "  - worker",
          "  - --token-file /etc/k0s/token", "write_files:",
          "- path: /etc/k0s/token", "  permissions: \"0600\"",
          "  content: |", "    test-token-12345"])) :=
  ⟨(role_stanza_exclusive (fun _ _ => none)
      ⟨"worker", "k0s", "v1.30.0+k0s.0", false, "kairos", "kairos",
        ["admin"], "test-token-12345", none⟩
      "test-machine" "https://control-plane:6443").1 _ rfl,
   (role_stanza_exclusive (fun _ _ => none)
      ⟨"worker", "k0s", "v1.30.0+k0s.0", false, "kairos", "kairos",
        ["admin"], "test-token-12345", none⟩
      "test-machine" "https://control-plane:6443").2 _ rfl⟩

/-- C9: for every control-plane-role spec (whose user groups do not use the
flag string as a group name), the synthesized document contains the
single-node start flag line if and only if `singleNode` is true. -/
theorem singleNode_flag_iff (lookup : String → String → Option String)
    (spec : KairosConfigSpec) (machineName serverAddress : String)
    (hg : "--single" ∉ spec.userGroups) :
    ∀ d, generateK0sCloudConfigLines lookup spec machineName
        "control-plane" serverAddress = .ok d →
      ("  - --single" ∈ d ↔ spec.singleNode = true) := by
  intro d hd
  obtain rfl := elseLines_of_ok (by decide) hd
  constructor
  · intro hmem
    rcases List.mem_append.mp hmem with h | h
    · rcases List.mem_append.mp h with h | h
      · simp [cloudConfigHeader, hostnameLine] at h
      · exfalso
        refine not_mem_userBlockLines "  - --single" spec (by decide)
          (by decide) (by decide) (by decide) ?_ h
        intro g hgm he
        have hgeq : g = "--single" := strAppend_left_cancel (by simpa using he)
        subst hgeq
        by_cases hemp : spec.userGroups = []
        · rw [hemp] at hgm
          simp at hgm
        · rw [if_neg hemp] at hgm
          exact hg hgm
    · by_cases hsn : spec.singleNode
      · exact hsn
      · exfalso
        simp [k0sControlPlaneLines, hsn] at h
  · intro hsn
    simp [k0sControlPlaneLines, hsn]

/-- Witness for C9: the flag line is present for a single-node spec and the
theorem applies with the default `admin` group. -/
theorem singleNode_flag_iff_witness :
    ("  - --single" ∈ (["#cloud-config", hostnameLine] ++
      ["users:", "- name: kairos", "  passwd: kairos", "  groups:",
        "  - admin"] ++
      ["k0s:", "  enabled: true", "  args:", "  - server",
        "  - --single"]) ↔ true = true) :=
  singleNode_flag_iff (fun _ _ => none)
    ⟨"control-plane", "k0s", "v1.30.0+k0s.0", true, "kairos", "kairos",
      ["admin"], "", none⟩
    "test-machine" "" (by decide) _ rfl

/-- C7: the synthesized document is independent of the machine identity,
and every successfully synthesized document contains the literal hostname
placeholder line byte-for-byte; the synthesizer performs no substitution on
it. -/
theorem hostname_placeholder_literal
    (lookup : String → String → Option String) (spec : KairosConfigSpec)
    (machineName machineName' role serverAddress : String) :
    generateK0sCloudConfigLines lookup spec machineName role serverAddress =
      generateK0sCloudConfigLines lookup spec machineName' role
        serverAddress ∧
    ∀ d, generateK0sCloudConfigLines lookup spec machineName role
        serverAddress = .ok d →
      hostnameLine ∈ d ∧ containsSubstr (renderLines d) hostnameLine := by
  refine ⟨rfl, ?_⟩
  intro d hd
  have hmem : hostnameLine ∈ d := by
    by_cases hrole : role = "worker"
    · subst hrole
      obtain ⟨t, -, -, -, rfl⟩ := workerLines_of_ok hd
      simp
    · obtain rfl := elseLines_of_ok hrole hd
      simp
  exact ⟨hmem, containsSubstr_of_mem_line ⟨[], [], by simp⟩ hmem⟩

/-- Witness for C7 at the hostname-templating test's inputs. -/
theorem hostname_placeholder_literal_witness :
    (generateK0sCloudConfigLines (fun _ _ => none)
        ⟨"control-plane", "k0s", "v1.30.0+k0s.0", true, "kairos", "kairos",
          ["admin"], "", none⟩ "test-machine" "control-plane" "" =
      generateK0sCloudConfigLines (fun _ _ => none)
        ⟨"control-plane", "k0s", "v1.30.0+k0s.0", true, "kairos", "kairos",
          ["admin"], "", none⟩ "other-machine" "control-plane" "") ∧
    (hostnameLine ∈ (["#cloud-config", hostnameLine] ++
        ["users:", "- name: kairos", "  passwd: kairos", "  groups:",
          "  - admin"] ++
        ["k0s:", "  enabled: true", "  args:", "  - server",
          "  - --single"]) ∧
      containsSubstr (renderLines (["#cloud-config", hostnameLine] ++
        ["users:", "- name: kairos", "  passwd: kairos", "  groups:",
          "  - admin"] ++
        ["k0s:", "  enabled: true", "  args:", "  - server",
          "  - --single"])) hostnameLine) :=
  ⟨(hostname_placeholder_literal (fun _ _ => none)
      ⟨"control-plane", "k0s", "v1.30.0+k0s.0", true, "kairos", "kairos",
        ["admin"], "", none⟩ "test-machine" "other-machine"
      "control-plane" "").1,
   (hostname_placeholder_literal (fun _ _ => none)
      ⟨"control-plane", "k0s", "v1.30.0+k0s.0", true, "kairos", "kairos",
        ["admin"], "", none⟩ "test-machine" "other-machine"
      "control-plane" "").2 _ rfl⟩

/-- C8: every successfully synthesized worker document writes the resolved
join token to exactly the file path referenced by the `--token-file`
argument of the worker service start arguments. -/
theorem worker_tokenfile_consistent
    (lookup : String → String → Option String) (spec : KairosConfigSpec)
    (machineName serverAddress : String) :
    ∀ d, generateK0sCloudConfigLines lookup spec machineName "worker"
        serverAddress = .ok d →
      ∃ t, resolveWorkerToken lookup spec = .ok t ∧
        ("  - --token-file " ++ k0sTokenPath) ∈ d ∧
        ("- path: " ++ k0sTokenPath) ∈ d ∧
        ("    " ++ t) ∈ d := by
  intro d hd
  obtain ⟨t, hres, -, -, rfl⟩ := workerLines_of_ok hd
  refine ⟨t, hres, ?_, ?_, ?_⟩ <;> simp [k0sWorkerLines]

/-- Witness for C8 at the worker-with-token test's inputs. -/
theorem worker_tokenfile_consistent_witness :
    ∃ t, resolveWorkerToken (fun _ _ => none)
        ⟨"worker", "k0s", "v1.30.0+k0s.0", false, "kairos", "kairos",
          ["admin"], "test-token-12345", none⟩ = .ok t ∧
      ("  - --token-file " ++ k0sTokenPath) ∈
        (["#cloud-config", hostnameLine] ++
          ["users:", "- name: kairos", "  passwd: kairos", "  groups:",
            "  - admin"] ++ k0sWorkerLines "test-token-12345") ∧
      ("- path: " ++ k0sTokenPath) ∈
        (["#cloud-config", hostnameLine] ++
          ["users:", "- name: kairos", "  passwd: kairos", "  groups:",
            "  - admin"] ++ k0sWorkerLines "test-token-12345") ∧
      ("    " ++ t) ∈
        (["#cloud-config", hostnameLine] ++
          ["users:", "- name: kairos", "  passwd: kairos", "  groups:",
            "  - admin"] ++ k0sWorkerLines "test-token-12345") :=
  worker_tokenfile_consistent (fun _ _ => none)
    ⟨"worker", "k0s", "v1.30.0+k0s.0", false, "kairos", "kairos",
      ["admin"], "test-token-12345", none⟩
    "test-machine" "https://control-plane:6443" _ rfl

end KairosCapi

namespace KairosCapi

/-- C1: for every KubevirtMachineTemplate input whose nested
virtual-machine template spec holds exactly one cloud-init-no-cloud volume
among other volumes, the cloned KubevirtMachine holds exactly the other
volumes, and no disk named `cloudinitdisk` from the template's disks list
survives in the returned object. -/
theorem kubevirtClone_filters_cloudinit
    (store : ObjectReference → Except String Unstructured)
    (templateRef : ObjectReference) (machineName ns : String)
    (labels annotations : List (String × String)) (t : Unstructured)
    (vmts ts dom devs : List (String × UValue))
    (l1 l2 ds : List UValue) (cv : UValue)
    (hget : store templateRef = .ok t)
    (hkind : templateRef.kind = "KubevirtMachineTemplate")
    (h1 : nestedMap t.content
      ["spec", "template", "spec", "virtualMachineTemplate", "spec"]
      = some vmts)
    (h2 : getKey vmts "template" = some (.map ts))
    (h3 : getKey ts "volumes" = some (.list (l1 ++ cv :: l2)))
    (hcv : volumeKept cv = false)
    (hothers : ∀ v ∈ l1 ++ l2, volumeKept v = true)
    (h5 : getKey ts "domain" = some (.map dom))
    (h6 : getKey dom "devices" = some (.map devs))
    (h7 : getKey devs "disks" = some (.list ds)) :
    ∃ m, CloneInfrastructureMachine store templateRef machineName ns
        labels annotations = .ok m ∧
      nestedValue m.content ["spec", "virtualMachineTemplate", "spec",
        "template", "volumes"] = some (.list (l1 ++ l2)) ∧
      ∃ outDisks, nestedValue m.content ["spec", "virtualMachineTemplate",
          "spec", "template", "domain", "devices", "disks"]
          = some (.list outDisks) ∧
        outDisks = filterDisks ds ∧
        ∀ dk ∈ outDisks, isCloudInitDisk dk = false := by
  have hF : filterVMTemplateSpec vmts =
      setKey vmts "template" (.map (setKey
        (setKey ts "volumes" (.list (l1 ++ l2))) "domain"
        (.map (setKey dom "devices"
          (.map (setKey devs "disks" (.list (filterDisks ds)))))))) := by
    simp [filterVMTemplateSpec, h2, h3, h5, h6, h7, getKey_setKey,
      filterVolumes_single_drop l1 l2 cv hcv hothers]
  have hclone : cloneKubevirtMachineTemplate t machineName ns labels
      annotations =
      .ok ⟨[("apiVersion", .str (apiVersionOf
          "infrastructure.cluster.x-k8s.io"
          (if t.gvkVersion = "" then "v1alpha1" else t.gvkVersion))),
        ("kind", .str "KubevirtMachine"),
        ("metadata", .map [("name", .str machineName),
          ("namespace", .str ns), ("labels", strMap labels),
          ("annotations", strMap annotations)]),
        ("spec", .map [("virtualMachineTemplate",
          .map [("spec", .map (filterVMTemplateSpec vmts))])])]⟩ := by
    rcases hr : getKey vmts "running" with - | val
    · simp [cloneKubevirtMachineTemplate, h1, hr, machineShell_content,
        setNestedField, setKey, getKey]
    · cases val <;>
        simp [cloneKubevirtMachineTemplate, h1, hr, machineShell_content,
          setNestedField, setKey, getKey]
  refine ⟨⟨[("apiVersion", .str (apiVersionOf
        "infrastructure.cluster.x-k8s.io"
        (if t.gvkVersion = "" then "v1alpha1" else t.gvkVersion))),
      ("kind", .str "KubevirtMachine"),
      ("metadata", .map [("name", .str machineName),
        ("namespace", .str ns), ("labels", strMap labels),
        ("annotations", strMap annotations)]),
      ("spec", .map [("virtualMachineTemplate",
        .map [("spec", .map (filterVMTemplateSpec vmts))])])]⟩, ?_, ?_,
    ⟨filterDisks ds, ?_, rfl,
      fun dk hdk => mem_filterDisks_not_cloudinit hdk⟩⟩
  · rw [CloneInfrastructureMachine, hget]
    simp only [hkind, reduceIte]
    exact hclone
  · simp [nestedValue, getKey, hF, getKey_setKey]
  · simp [nestedValue, getKey, hF, getKey_setKey]

end KairosCapi

namespace KairosCapi

/-- Witness for C1: cloning a concrete template carrying a root volume, one
cloud-init-no-cloud volume, a root disk and a `cloudinitdisk` keeps exactly
the root volume and the root disk. -/
theorem kubevirtClone_filters_cloudinit_witness :
    ∃ m, CloneInfrastructureMachine
        (fun _ => .ok ⟨[("apiVersion",
            .str "infrastructure.cluster.x-k8s.io/v1alpha1"),
          ("kind", .str "KubevirtMachineTemplate"),
          ("spec", .map [("template", .map [("spec", .map
            [("virtualMachineTemplate", .map [("spec", .map
              [("running", .bool true),
               ("template", .map
                 [("volumes", .list
                    [.map [("name", .str "rootdisk"),
                       ("dataVolume", .map
                         [("name", .str "kairos-rootdisk")])],
                     .map [("name", .str "cloudinitvolume"),
                       ("cloudInitNoCloud", .map
                         [("userData", .str "#cloud-config")])]]),
                  ("domain", .map [("devices", .map [("disks", .list
                    [.map [("name", .str "rootdisk")],
                     .map [("name", .str "cloudinitdisk")]])])])])])])])])])]⟩)
        ⟨"KubevirtMachineTemplate", "infrastructure.cluster.x-k8s.io",
          "v1alpha1", "tpl", "default"⟩ "machine-0" "default" [] []
        = .ok m ∧
      nestedValue m.content ["spec", "virtualMachineTemplate", "spec",
        "template", "volumes"] = some (.list
          ([.map [("name", .str "rootdisk"),
             ("dataVolume", .map [("name", .str "kairos-rootdisk")])]] ++
           [])) ∧
      ∃ outDisks, nestedValue m.content ["spec", "virtualMachineTemplate",
          "spec", "template", "domain", "devices", "disks"]
          = some (.list outDisks) ∧
        outDisks = filterDisks
          [.map [("name", .str "rootdisk")],
           .map [("name", .str "cloudinitdisk")]] ∧
        ∀ dk ∈ outDisks, isCloudInitDisk dk = false :=
  kubevirtClone_filters_cloudinit _ _ "machine-0" "default" [] [] _ _ _ _ _
    [.map [("name", .str "rootdisk"),
       ("dataVolume", .map [("name", .str "kairos-rootdisk")])]]
    []
    [.map [("name", .str "rootdisk")],
     .map [("name", .str "cloudinitdisk")]]
    (.map [("name", .str "cloudinitvolume"),
       ("cloudInitNoCloud", .map [("userData", .str "#cloud-config")])])
    rfl rfl rfl rfl rfl rfl
    (by intro v hv; simp at hv; subst hv; rfl)
    rfl rfl rfl

end KairosCapi
